import Mathlib

/-!
Verification of the Channel Lifecycle & Concurrency Coordination layer of a
payment-channel node (`raiden/api/python.py`), via a shallow embedding.

Addresses are modelled as byte lists (Python `bytes`); amounts, block numbers
and timeouts as naturals.  Each API operation is embedded as a pure function
from an environment snapshot (the node's state, the ledger's answers, the set
of currently-held channel-operation locks) to a result, a trace of the ledger
and lock effects it performed, and the final set of held locks.
-/

deriving instance DecidableEq for Except

namespace Raiden

/-- An address: Python `bytes` values, modelled as lists of byte values. -/
abbrev Addr := List Nat

/-- Source `eth_utils.is_binary_address`: the value is a 20-byte string. -/
def is_binary_address (a : Addr) : Bool :=
  a.length == 20 && a.all (· < 256)

/-- Python truthiness of an optional `bytes` argument (`if token_address:`):
`None` and the empty byte string are falsy. -/
def pyTruthy : Option Addr → Bool
  | none => false
  | some a => !a.isEmpty

/-- The fields of a channel state that the API layer reads: the channel
identifier (netting-contract address), the token, the partner, and our end's
contract balance (`channel_state.our_state.contract_balance`). -/
structure ChannelState where
  identifier : Addr
  token : Addr
  partner : Addr
  our_contract_balance : Nat
  deriving DecidableEq, Repr

/-- The Channel State Store snapshot: the channels the node participates in. -/
structure NodeState where
  channels : List ChannelState
  deriving DecidableEq, Repr

/-- Modelled from the spec: `views.get_channelstate_for` is missing from the
sources; per the data model, at most one ChannelState exists per
(token, partner) pair, and this query returns it, or nothing. -/
def get_channelstate_for (node : NodeState) (_registry token partner : Addr) :
    Option ChannelState :=
  node.channels.find? (fun c => c.token == token && c.partner == partner)

/-- Modelled from the spec: `views.list_channelstate_for_tokennetwork` is
missing from the sources; it returns the channels of the given token network,
that is, the node's channels denominated in that token. -/
def list_channelstate_for_tokennetwork (node : NodeState)
    (_registry token_address : Addr) : List ChannelState :=
  node.channels.filter (fun c => c.token == token_address)

/-- Modelled from the spec: `views.list_all_channelstate` is missing from the
sources; it returns every channel of the store's snapshot. -/
def list_all_channelstate (node : NodeState) : List ChannelState :=
  node.channels

/-- Modelled from the spec: `views.filter_channels_by_partneraddress` is
missing from the sources; it returns, for each listed partner, the unique
(token, partner) channel when it exists. -/
def filter_channels_by_partneraddress (node : NodeState)
    (registry token : Addr) (partner_addresses : List Addr) :
    List ChannelState :=
  partner_addresses.filterMap (fun p => get_channelstate_for node registry token p)

/-- The errors the embedded operations raise.  Constructors carry the data the
Python exception messages are formatted from; in particular `channelBusy`
carries the channel identifier the message names. -/
inductive Err where
  | invalidAddress (msg : String)
  | unknownToken (msg : String)
  | channelNotFound
  | invalidSettleTimeout (msg : String)
  | insufficientFunds (token : Addr) (available tried : Nat)
  | channelBusy (channelId : Addr)
  | alreadyRegistered (msg : String)
  | transactionThrew
  | communicationTimeout (operation : String) (seconds : Nat)
  deriving DecidableEq, Repr

/-- The externally observable effects an operation performs, in order. -/
inductive Action where
  | registryLookup (registry : Addr)
  | newNettingChannel (partner : Addr) (settle_timeout : Nat)
  | waitNewChannel (token partner : Addr)
  | approve (spender : Addr) (amount : Nat)
  | depositTx (amount : Nat)
  | waitNewBalance (target_balance : Nat)
  | submitClose (token_network_id channel_id : Addr)
  | waitForClose (channel_ids : List Addr)
  | submitRegister (token : Addr)
  | waitForBlock (block : Nat)
  | acquireLock (channel_id : Addr)
  | releaseLock (channel_id : Addr)
  deriving DecidableEq, Repr

/-- Result of running one embedded API operation: the returned value or the
raised error, the trace of effects, and the channel locks held afterwards. -/
structure RunResult (α : Type) where
  result : Except Err α
  trace : List Action
  held : List Addr
  deriving Repr

/-- The environment snapshot an operation runs against: the state-store
snapshot, the answers the external collaborators (ledger, registry, alarm)
would give during this call, and the channel-operation locks currently held
by other in-flight operations. -/
structure Env where
  node : NodeState
  /-- `views.get_token_network_addresses_for`: tokens registered with the registry. -/
  tokenNetworks : List Addr
  /-- `views.get_token_network_identifier_by_token_address` for the close's token. -/
  tokenNetworkId : Addr
  /-- `token.balance_of(self.raiden.address)` for the deposit's token. -/
  balance : Nat
  /-- Channel identifiers whose `channel_operations_lock` is currently held. -/
  held : List Addr
  /-- `self.raiden.get_block_number()`. -/
  blockNumber : Nat
  /-- `self.raiden.config` timeouts used as defaults by `channel_open`. -/
  configRevealTimeout : Nat
  configSettleTimeout : Nat
  /-- Whether each confirmation wait observes its condition before `poll_timeout`. -/
  openWaitOk : Bool
  depositWaitOk : Bool
  closeWaitOk : Bool
  /-- The address `channel_manager.new_netting_channel` returns. -/
  newChannelAddress : Addr
  /-- Whether `registry.add_token` succeeds, and what it returns. -/
  registerOk : Bool
  addTokenResult : Addr
  deriving Repr

/-- Source `RaidenAPI.channel_deposit`: validate, check the token balance,
try the channel lock without blocking, then approve, deposit, and wait for
the `ChannelNewBalance` event, releasing the lock on every exit path. -/
def channel_deposit (env : Env) (registry_address token_address
    partner_address : Addr) (amount : Nat) (poll_timeout : Nat) :
    RunResult Unit :=
  let token_networks := env.tokenNetworks
  let channel_state := get_channelstate_for env.node registry_address
    token_address partner_address
  if !is_binary_address token_address then
    ⟨.error (.invalidAddress "Expected binary address format for token in channel deposit"),
      [], env.held⟩
  else if !is_binary_address partner_address then
    ⟨.error (.invalidAddress "Expected binary address format for partner in channel deposit"),
      [], env.held⟩
  else if !token_networks.contains token_address then
    ⟨.error (.unknownToken "Unknown token address"), [], env.held⟩
  else
    match channel_state with
    | none =>
      ⟨.error (.invalidAddress "No channel with partner_address for the given token"),
        [], env.held⟩
    | some cs =>
      let balance := env.balance
      if !(amount ≤ balance) then
        ⟨.error (.insufficientFunds token_address balance amount), [], env.held⟩
      else
        let netcontract_address := cs.identifier
        if env.held.contains netcontract_address then
          ⟨.error (.channelBusy netcontract_address), [], env.held⟩
        else
          let held1 := netcontract_address :: env.held
          let old_balance := cs.our_contract_balance
          let target_balance := old_balance + amount
          let trace := [Action.acquireLock netcontract_address,
            Action.approve netcontract_address amount,
            Action.depositTx amount,
            Action.waitNewBalance target_balance,
            Action.releaseLock netcontract_address]
          if env.depositWaitOk then
            ⟨.ok (), trace, held1.erase netcontract_address⟩
          else
            ⟨.error (.communicationTimeout "deposit" poll_timeout), trace,
              held1.erase netcontract_address⟩

/-- Modelled from the spec: the predicate of
`waiting.wait_for_participant_newbalance` (missing from the sources) — the
wait returns success once the store reports the participant contract balance
at least the target balance. -/
def newbalance_satisfied (store_balance target_balance : Nat) : Bool :=
  target_balance ≤ store_balance

/-- The lock-acquisition loop of `channel_batch_close` inside the `ExitStack`:
acquire each channel's `channel_operations_lock` without blocking, pushing the
acquired locks onto the stack; stop at the first channel whose lock is held.
Returns the held-lock set and pushed stack at the point the loop ends, and the
identifier of the busy channel when acquisition failed. -/
def batchAcquire : List ChannelState → List Addr → List Addr →
    (List Addr × List Addr × Option Addr)
  | [], held, pushed => (held, pushed, none)
  | cs :: rest, held, pushed =>
    if held.contains cs.identifier then
      (held, pushed, some cs.identifier)
    else
      batchAcquire rest (cs.identifier :: held) (cs.identifier :: pushed)

/-- Source `RaidenAPI.channel_batch_close`: validate, resolve the channels for
the listed partners, acquire every involved lock or fail the whole request,
submit an `ActionChannelClose` state change per channel, wait for all of them
to close, and let the `ExitStack` release every pushed lock (in reverse
acquisition order) on every exit path, the `ChannelBusyError` one included. -/
def channel_batch_close (env : Env) (registry_address token_address : Addr)
    (partner_addresses : List Addr) (poll_timeout : Nat) : RunResult Unit :=
  if !is_binary_address token_address then
    ⟨.error (.invalidAddress "Expected binary address format for token in channel close"),
      [], env.held⟩
  else if !partner_addresses.all is_binary_address then
    ⟨.error (.invalidAddress "Expected binary address format for partner in channel close"),
      [], env.held⟩
  else if !env.tokenNetworks.contains token_address then
    ⟨.error (.unknownToken "Token address is not known."), [], env.held⟩
  else
    let channels_to_close := filter_channels_by_partneraddress env.node
      registry_address token_address partner_addresses
    let token_network_identifier := env.tokenNetworkId
    match batchAcquire channels_to_close env.held [] with
    | (heldEnd, pushed, some busy) =>
      ⟨.error (.channelBusy busy),
        pushed.reverse.map Action.acquireLock ++ pushed.map Action.releaseLock,
        pushed.foldl List.erase heldEnd⟩
    | (heldEnd, pushed, none) =>
      let closes := channels_to_close.map
        (fun cs => Action.submitClose token_network_identifier cs.identifier)
      let channel_ids := channels_to_close.map (fun cs => cs.identifier)
      let trace := pushed.reverse.map Action.acquireLock ++ closes ++
        [Action.waitForClose channel_ids] ++ pushed.map Action.releaseLock
      if env.closeWaitOk then
        ⟨.ok (), trace, pushed.foldl List.erase heldEnd⟩
      else
        ⟨.error (.communicationTimeout "close" poll_timeout), trace,
          pushed.foldl List.erase heldEnd⟩

/-- Source `RaidenAPI.channel_close`: delegates to `channel_batch_close` with
the one-element partner list. -/
def channel_close (env : Env) (registry_address token_address
    partner_address : Addr) (poll_timeout : Nat) : RunResult Unit :=
  channel_batch_close env registry_address token_address [partner_address]
    poll_timeout

/-- Source `RaidenAPI.channel_open`: substitute the configured default
timeouts, reject `settle_timeout <= reveal_timeout` before anything else, then
validate the addresses, create the netting channel through the registry and
wait for the new channel to appear in the store. -/
def channel_open (env : Env) (registry_address token_address
    partner_address : Addr) (settle_timeout reveal_timeout : Option Nat)
    (poll_timeout : Nat) : RunResult Addr :=
  let reveal := reveal_timeout.getD env.configRevealTimeout
  let settle := settle_timeout.getD env.configSettleTimeout
  if settle ≤ reveal then
    ⟨.error (.invalidSettleTimeout "reveal_timeout can not be larger-or-equal to settle_timeout"),
      [], env.held⟩
  else if !is_binary_address registry_address then
    ⟨.error (.invalidAddress "Expected binary address format for registry in channel open"),
      [], env.held⟩
  else if !is_binary_address token_address then
    ⟨.error (.invalidAddress "Expected binary address format for token in channel open"),
      [], env.held⟩
  else if !is_binary_address partner_address then
    ⟨.error (.invalidAddress "Expected binary address format for partner in channel open"),
      [], env.held⟩
  else
    let trace := [Action.registryLookup registry_address,
      Action.newNettingChannel partner_address settle,
      Action.waitNewChannel token_address partner_address]
    if env.openWaitOk then
      ⟨.ok env.newChannelAddress, trace, env.held⟩
    else
      ⟨.error (.communicationTimeout "open" poll_timeout), trace, env.held⟩

/-- Source `RaidenAPI.token_network_register`: validate the addresses, fail
when the token is already in the node's token list, then submit the
registration inside a `try` whose `finally` waits for one additional block —
so the wait runs on the success path and the failure path alike. -/
def token_network_register (env : Env) (registry_address token_address : Addr)
    (_poll_timeout : Nat) : RunResult Addr :=
  if !is_binary_address registry_address then
    ⟨.error (.invalidAddress "registry_address must be a valid address in binary"),
      [], env.held⟩
  else if !is_binary_address token_address then
    ⟨.error (.invalidAddress "token_address must be a valid address in binary"),
      [], env.held⟩
  else if env.tokenNetworks.contains token_address then
    ⟨.error (.alreadyRegistered "Token already registered"), [], env.held⟩
  else
    let next_block := env.blockNumber + 1
    let trace := [Action.submitRegister token_address,
      Action.waitForBlock next_block]
    if env.registerOk then
      ⟨.ok env.addTokenResult, trace, env.held⟩
    else
      ⟨.error .transactionThrew, trace, env.held⟩

/-- Source `RaidenAPI.get_channel_list`: dispatch on the truthiness of the
optional token and partner filters.  The partner-only branch passes
`partner_address` where `list_channelstate_for_tokennetwork` expects a token
address — reproduced as written. -/
def get_channel_list (env : Env) (registry_address : Addr)
    (token_address partner_address : Option Addr) :
    Except Err (List ChannelState) :=
  if pyTruthy token_address && !is_binary_address (token_address.getD []) then
    .error (.invalidAddress "Expected binary address format for token in get_channel_list")
  else if pyTruthy partner_address && !is_binary_address (partner_address.getD []) then
    .error (.invalidAddress "Expected binary address format for partner in get_channel_list")
  else if pyTruthy token_address && pyTruthy partner_address then
    match get_channelstate_for env.node registry_address
      (token_address.getD []) (partner_address.getD []) with
    | some cs => .ok [cs]
    | none => .ok []
  else if pyTruthy token_address then
    .ok (list_channelstate_for_tokennetwork env.node registry_address
      (token_address.getD []))
  else if pyTruthy partner_address then
    .ok (list_channelstate_for_tokennetwork env.node registry_address
      (partner_address.getD []))
  else
    .ok (list_all_channelstate env.node)

/-- The node's internally recorded protocol events.  The three whitelisted
kinds mirror the classes of `EVENTS_EXTERNALLY_VISIBLE`; `other` stands for
every other internal event class.  The `payload` stands for the event
object's own fields (`event.__dict__`). -/
inductive InternalEvent where
  | transferSentSuccess (payload : Nat)
  | transferSentFailed (payload : Nat)
  | transferReceivedSuccess (payload : Nat)
  | other (className : String) (payload : Nat)
  deriving DecidableEq, Repr

/-- Source `EVENTS_EXTERNALLY_VISIBLE` membership:
`isinstance(event, EVENTS_EXTERNALLY_VISIBLE)`. -/
def externally_visible : InternalEvent → Bool
  | .transferSentSuccess _ => true
  | .transferSentFailed _ => true
  | .transferReceivedSuccess _ => true
  | .other _ _ => false

/-- Python `type(event).__name__` for an internal event. -/
def eventClassName : InternalEvent → String
  | .transferSentSuccess _ => "EventTransferSentSuccess"
  | .transferSentFailed _ => "EventTransferSentFailed"
  | .transferReceivedSuccess _ => "EventTransferReceivedSuccess"
  | .other n _ => n

/-- The event object's own fields. -/
def eventPayload : InternalEvent → Nat
  | .transferSentSuccess p => p
  | .transferSentFailed p => p
  | .transferReceivedSuccess p => p
  | .other _ p => p

/-- A ledger-native event fetched from the chain, opaque to this layer. -/
abbrev LedgerEvent := Nat

/-- One record of the merged event stream `get_channel_events` returns:
either a ledger-native event, or a whitelisted internal event re-shaped into
a record carrying its block number, the discriminating class name, and the
event's own fields. -/
inductive OutputEvent where
  | ledger (e : LedgerEvent)
  | reshaped (block_number : Nat) (event : String) (payload : Nat)
  deriving DecidableEq, Repr

/-- Modelled from the spec: `wal.storage.get_events_by_block` is missing from
the sources; it returns the internally recorded events whose block number
lies in the queried range. -/
def get_events_by_block (recorded : List (Nat × InternalEvent))
    (from_block to_block : Nat) : List (Nat × InternalEvent) :=
  recorded.filter (fun be => from_block ≤ be.1 && be.1 ≤ to_block)

/-- The internally recorded protocol events, part of the environment of
`get_channel_events` (the write-ahead-log storage). -/
structure EventEnv where
  /-- What `get_all_netting_channel_events` returns for the queried scope
  and range (an opaque chain query, nothing is claimed about it). -/
  ledgerEvents : List LedgerEvent
  /-- Every internally recorded protocol event, with its block number. -/
  internalEvents : List (Nat × InternalEvent)
  deriving Repr

/-- Source `RaidenAPI.get_channel_events`: validate the channel address,
fetch the ledger events for the scope, then append each internally recorded
event of the queried block range that is `isinstance` of
`EVENTS_EXTERNALLY_VISIBLE`, re-shaped with its block number and class name. -/
def get_channel_events (env : EventEnv) (channel_address : Addr)
    (from_block to_block : Nat) : Except Err (List OutputEvent) :=
  if !is_binary_address channel_address then
    .error (.invalidAddress "Expected binary address format for channel in get_channel_events")
  else
    let returned_events := env.ledgerEvents.map OutputEvent.ledger
    let raiden_events := get_events_by_block env.internalEvents from_block to_block
    .ok (returned_events ++
      (raiden_events.filter (fun be => externally_visible be.2)).map
        (fun be => OutputEvent.reshaped be.1 (eventClassName be.2) (eventPayload be.2)))

/-- Modelled from the spec: the per-channel `channel_operations_lock` is a
counting semaphore attached to the channel proxy (external to the sources),
granting mutually exclusive, non-blocking access.  `count` is the semaphore
counter (initially 1); `holders` is the ghost record of the call flows
currently holding the lock. -/
structure Sem where
  count : Nat
  holders : List Nat
  deriving DecidableEq, Repr

/-- A fresh channel-operation lock: counter 1, no holder. -/
def Sem.init : Sem := ⟨1, []⟩

/-- A lock operation performed by one call flow: the non-blocking
`acquire(blocking=False)` (a no-op returning failure when the counter is
exhausted) or `release`. -/
inductive SemOp where
  | tryAcquire (flow : Nat)
  | release (flow : Nat)
  deriving DecidableEq, Repr

/-- One step of a channel's semaphore. -/
def semStep (s : Sem) : SemOp → Sem
  | .tryAcquire f => if 0 < s.count then ⟨s.count - 1, f :: s.holders⟩ else s
  | .release f => ⟨s.count + 1, s.holders.erase f⟩

/-- The Lock Manager's state: one semaphore per channel identifier. -/
def sysInit : Addr → Sem := fun _ => Sem.init

/-- One step of the Lock Manager: the named channel's semaphore steps, every
other channel's lock is untouched. -/
def sysStep (s : Addr → Sem) (op : Addr × SemOp) : Addr → Sem :=
  fun a => if a = op.1 then semStep (s op.1) op.2 else s a

/-- Run an interleaved trace of lock operations from the given state. -/
def sysRun (s : Addr → Sem) (ops : List (Addr × SemOp)) : Addr → Sem :=
  ops.foldl sysStep s

/-- One lock operation respects the release discipline in the given state:
a release only happens when the releasing flow currently holds the lock. -/
def opOk (s : Addr → Sem) : Addr × SemOp → Bool
  | (c, .release f) => (s c).holders.contains f
  | (_, .tryAcquire _) => true

/-- The release discipline the source enforces with `releasing(...)` and the
`ExitStack`: along the whole trace, a flow only ever releases a lock it
currently holds (and releases it exactly once per successful acquisition). -/
def sysWellScoped : (Addr → Sem) → List (Addr × SemOp) → Bool
  | _, [] => true
  | s, op :: rest => opOk s op && sysWellScoped (sysStep s op) rest

/-- Releasing, in LIFO order, exactly the locks this batch pushed returns the
held-lock set to what it was before the batch started. -/
theorem foldl_erase_append (q base : List Addr) :
    List.foldl List.erase (q ++ base) q = base := by
  induction q with
  | nil => simp
  | cons a q' ih =>
    simp only [List.cons_append, List.foldl_cons, List.erase_cons_head]
    exact ih

/-- Whatever point the acquisition loop stops at, the held-lock set is the
pushed stack prepended to the initial held-lock set. -/
theorem batchAcquire_shape :
    ∀ (cs : List ChannelState) (held pushed h' p' : List Addr)
      (r : Option Addr), batchAcquire cs held pushed = (h', p', r) →
      ∃ q, p' = q ++ pushed ∧ h' = q ++ held := by
  intro cs
  induction cs with
  | nil =>
    intro held pushed h' p' r h
    simp only [batchAcquire, Prod.mk.injEq] at h
    exact ⟨[], by simp [h.1, h.2.1]⟩
  | cons c rest ih =>
    intro held pushed h' p' r h
    by_cases hc : held.contains c.identifier = true
    · simp only [batchAcquire, hc, if_true, Prod.mk.injEq] at h
      exact ⟨[], by simp [h.1, h.2.1]⟩
    · simp only [batchAcquire, hc, if_false, Bool.false_eq_true] at h
      obtain ⟨q, hq1, hq2⟩ := ih (c.identifier :: held) (c.identifier :: pushed) h' p' r h
      refine ⟨q ++ [c.identifier], ?_, ?_⟩
      · simp [hq1, List.append_assoc]
      · simp [hq2, List.append_assoc]

/-- When some channel of the batch is already locked, the acquisition loop
necessarily stops with a busy failure. -/
theorem batchAcquire_busy :
    ∀ (cs : List ChannelState) (held pushed : List Addr),
      (∃ c ∈ cs, c.identifier ∈ held) →
      ∃ h' p' b, batchAcquire cs held pushed = (h', p', some b) := by
  intro cs
  induction cs with
  | nil =>
    intro held pushed hex
    obtain ⟨c, hc, _⟩ := hex
    exact absurd hc (List.not_mem_nil c)
  | cons c rest ih =>
    intro held pushed hex
    by_cases hc : held.contains c.identifier = true
    · refine ⟨held, pushed, c.identifier, ?_⟩
      simp only [batchAcquire]
      rw [if_pos hc]
    · have hcmem : c.identifier ∉ held := by simpa using hc
      obtain ⟨c', hc', hmem⟩ := hex
      have hc'rest : c' ∈ rest := by
        rcases List.mem_cons.mp hc' with rfl | hr
        · exact absurd hmem hcmem
        · exact hr
      obtain ⟨h', p', b, hb⟩ := ih (c.identifier :: held) (c.identifier :: pushed)
        ⟨c', hc'rest, List.mem_cons_of_mem _ hmem⟩
      refine ⟨h', p', b, ?_⟩
      simp only [batchAcquire]
      rw [if_neg hc]
      exact hb

/-- The Lock Manager invariant: along any trace respecting the release
discipline, each channel's semaphore counter plus its number of holders stays
exactly one. -/
theorem sysRun_invariant :
    ∀ (ops : List (Addr × SemOp)) (s : Addr → Sem),
      sysWellScoped s ops = true →
      (∀ a, (s a).count + (s a).holders.length = 1) →
      ∀ a, ((sysRun s ops) a).count + ((sysRun s ops) a).holders.length = 1 := by
  intro ops
  induction ops with
  | nil =>
    intro s _ hinv a
    exact hinv a
  | cons op rest ih =>
    intro s hws hinv a
    obtain ⟨c, o⟩ := op
    simp only [sysWellScoped, Bool.and_eq_true] at hws
    apply ih (sysStep s (c, o)) hws.2
    intro b
    by_cases hb : b = c
    · subst hb
      have hstep : (sysStep s (b, o)) b = semStep (s b) o := by
        simp [sysStep]
      rw [hstep]
      cases o with
      | tryAcquire f =>
        simp only [semStep]
        by_cases hcnt : 0 < (s b).count
        · rw [if_pos hcnt]
          simp only [List.length_cons]
          have := hinv b
          omega
        · rw [if_neg hcnt]
          exact hinv b
      | release f =>
        have hf : f ∈ (s b).holders := by
          simpa [opOk] using hws.1
        have hlen := List.length_erase_of_mem hf
        have hpos : 0 < (s b).holders.length :=
          List.length_pos.mpr (List.ne_nil_of_mem hf)
        simp only [semStep]
        have := hinv b
        omega
    · simp only [sysStep, if_neg hb]
      exact hinv b

/-- A prefix of a trace respecting the release discipline respects it too. -/
theorem sysWellScoped_append :
    ∀ (pre suf : List (Addr × SemOp)) (s : Addr → Sem),
      sysWellScoped s (pre ++ suf) = true → sysWellScoped s pre = true := by
  intro pre
  induction pre with
  | nil =>
    intro suf s _
    rfl
  | cons op rest ih =>
    intro suf s h
    simp only [List.cons_append, sysWellScoped, Bool.and_eq_true] at h ⊢
    exact ⟨h.1, ih suf (sysStep s op) h.2⟩

/-! Concrete fixtures used to instantiate the theorems below. -/

/-- A concrete 20-byte token address. -/
def tokenA : Addr := List.replicate 20 1

/-- A concrete 20-byte partner address. -/
def partnerA : Addr := List.replicate 20 2

/-- A concrete 20-byte channel (netting-contract) address. -/
def chanA : Addr := List.replicate 20 3

/-- A concrete 20-byte registry address. -/
def registryA : Addr := List.replicate 20 4

/-- A second concrete 20-byte partner address. -/
def partnerB : Addr := List.replicate 20 5

/-- A second concrete 20-byte channel address. -/
def chanB : Addr := List.replicate 20 6

/-- A concrete channel between us and `partnerA`, holding 5 tokens for us. -/
def csA : ChannelState := ⟨chanA, tokenA, partnerA, 5⟩

/-- A concrete channel between us and `partnerB`. -/
def csB : ChannelState := ⟨chanB, tokenA, partnerB, 0⟩

/-- A concrete baseline environment: two open channels on one registered
token network, 30 tokens of balance, no lock held. -/
def envA : Env :=
  { node := ⟨[csA, csB]⟩
    tokenNetworks := [tokenA]
    tokenNetworkId := tokenA
    balance := 30
    held := []
    blockNumber := 7
    configRevealTimeout := 10
    configSettleTimeout := 500
    openWaitOk := true
    depositWaitOk := true
    closeWaitOk := true
    newChannelAddress := chanA
    registerOk := true
    addTokenResult := tokenA }

/-- Claim C10: for every registry, token, partner and poll timeout, the
single-channel close operation is behaviourally identical to
`channel_batch_close` invoked with the one-element partner list: same result
(same raised errors), same effect trace (lock acquisition, submitted state
changes, confirmation wait) and same final lock state. -/
theorem C10_channel_close_is_batch_close_singleton (env : Env)
    (registry_address token_address partner_address : Addr)
    (poll_timeout : Nat) :
    channel_close env registry_address token_address partner_address
        poll_timeout =
      channel_batch_close env registry_address token_address
        [partner_address] poll_timeout := rfl

/-- Claim C6: for every open call where, after the configured defaults are
substituted, `reveal_timeout` is at least `settle_timeout`, the call raises
the invalid-settle-timeout error with an empty effect trace: no registry
lookup, no channel-creation transaction, and the lock state untouched. -/
theorem C6_open_rejects_reveal_ge_settle (env : Env)
    (registry_address token_address partner_address : Addr)
    (settle_timeout reveal_timeout : Option Nat) (poll_timeout : Nat)
    (h : settle_timeout.getD env.configSettleTimeout ≤
      reveal_timeout.getD env.configRevealTimeout) :
    (channel_open env registry_address token_address partner_address
        settle_timeout reveal_timeout poll_timeout).result =
      .error (.invalidSettleTimeout
        "reveal_timeout can not be larger-or-equal to settle_timeout") ∧
    (channel_open env registry_address token_address partner_address
        settle_timeout reveal_timeout poll_timeout).trace = [] ∧
    (channel_open env registry_address token_address partner_address
        settle_timeout reveal_timeout poll_timeout).held = env.held := by
  simp only [channel_open]
  rw [if_pos h]
  exact ⟨rfl, rfl, rfl⟩

/-- Witness for C6: opening with `settle_timeout = 20` and
`reveal_timeout = 20` is rejected with an empty trace. -/
theorem C6_witness :
    (channel_open envA registryA tokenA partnerA (some 20) (some 20)
        100).result =
      .error (.invalidSettleTimeout
        "reveal_timeout can not be larger-or-equal to settle_timeout") ∧
    (channel_open envA registryA tokenA partnerA (some 20) (some 20)
        100).trace = [] ∧
    (channel_open envA registryA tokenA partnerA (some 20) (some 20)
        100).held = envA.held :=
  C6_open_rejects_reveal_ge_settle envA registryA tokenA partnerA
    (some 20) (some 20) 100 (by decide)

/-- Claim C4: for every deposit call that reaches the balance check (valid
addresses, known token, existing channel) with `amount` strictly greater than
the caller's current token balance, the call raises the insufficient-funds
error with an empty effect trace — before the channel lock is acquired,
before any token approval, and before any deposit transaction. -/
theorem C4_deposit_insufficient_funds (env : Env)
    (registry_address token_address partner_address : Addr)
    (amount poll_timeout : Nat) (cs : ChannelState)
    (htok : is_binary_address token_address = true)
    (hpar : is_binary_address partner_address = true)
    (hnet : env.tokenNetworks.contains token_address = true)
    (hcs : get_channelstate_for env.node registry_address token_address
      partner_address = some cs)
    (hbal : env.balance < amount) :
    (channel_deposit env registry_address token_address partner_address
        amount poll_timeout).result =
      .error (.insufficientFunds token_address env.balance amount) ∧
    (channel_deposit env registry_address token_address partner_address
        amount poll_timeout).trace = [] ∧
    (channel_deposit env registry_address token_address partner_address
        amount poll_timeout).held = env.held := by
  have hnle : ¬(amount ≤ env.balance) := Nat.not_le.mpr hbal
  have hmem : token_address ∈ env.tokenNetworks := by simpa using hnet
  simp [channel_deposit, htok, hpar, hmem, hcs, hnle]

/-- Witness for C4: on the concrete environment (balance 30), depositing 50
is rejected with insufficient funds and an empty trace. -/
theorem C4_witness :
    (channel_deposit envA registryA tokenA partnerA 50 100).result =
      .error (.insufficientFunds tokenA 30 50) ∧
    (channel_deposit envA registryA tokenA partnerA 50 100).trace = [] ∧
    (channel_deposit envA registryA tokenA partnerA 50 100).held =
      envA.held :=
  C4_deposit_insufficient_funds envA registryA tokenA partnerA 50 100 csA
    (by decide) (by decide) (by decide) (by decide) (by decide)

/-- Claim C3: for every single-channel mutating operation — deposit or close
— reaching its lock attempt (valid addresses, known token, existing channel,
sufficient balance for deposit) while the target channel's operation lock is
already held, the call fails with the channel-busy error carrying the channel
identifier instead of blocking (the non-blocking `acquire(blocking=False)` is
the only lock interaction), with an empty effect trace: no approval, no
deposit transaction, no close state change, and the lock state untouched. -/
theorem C3_busy_channel_fails_fast (env : Env)
    (registry_address token_address partner_address : Addr)
    (amount poll_timeout : Nat) (cs : ChannelState)
    (htok : is_binary_address token_address = true)
    (hpar : is_binary_address partner_address = true)
    (hnet : env.tokenNetworks.contains token_address = true)
    (hcs : get_channelstate_for env.node registry_address token_address
      partner_address = some cs)
    (hheld : cs.identifier ∈ env.held)
    (hle : amount ≤ env.balance) :
    ((channel_deposit env registry_address token_address partner_address
        amount poll_timeout).result =
      .error (.channelBusy cs.identifier) ∧
     (channel_deposit env registry_address token_address partner_address
        amount poll_timeout).trace = [] ∧
     (channel_deposit env registry_address token_address partner_address
        amount poll_timeout).held = env.held) ∧
    ((channel_close env registry_address token_address partner_address
        poll_timeout).result = .error (.channelBusy cs.identifier) ∧
     (channel_close env registry_address token_address partner_address
        poll_timeout).trace = [] ∧
     (channel_close env registry_address token_address partner_address
        poll_timeout).held = env.held) := by
  have hmem : token_address ∈ env.tokenNetworks := by simpa using hnet
  have hcont : env.held.contains cs.identifier = true := by simpa using hheld
  constructor
  · simp [channel_deposit, htok, hpar, hmem, hcs, hle, hheld]
  · have hfc : filter_channels_by_partneraddress env.node registry_address
        token_address [partner_address] = [cs] := by
      simp [filter_channels_by_partneraddress, hcs]
    have hba : batchAcquire [cs] env.held [] =
        (env.held, [], some cs.identifier) := by
      simp only [batchAcquire]
      rw [if_pos hcont]
    simp [channel_close, channel_batch_close, htok, hpar, hmem, hfc, hba]

/-- Witness for C3: with `chanA`'s lock already held, both the deposit of 10
and the close on that channel fail with the busy error naming `chanA` and an
empty trace. -/
theorem C3_witness :
    ((channel_deposit { envA with held := [chanA] } registryA tokenA partnerA
        10 100).result = .error (.channelBusy chanA) ∧
     (channel_deposit { envA with held := [chanA] } registryA tokenA partnerA
        10 100).trace = [] ∧
     (channel_deposit { envA with held := [chanA] } registryA tokenA partnerA
        10 100).held = [chanA]) ∧
    ((channel_close { envA with held := [chanA] } registryA tokenA partnerA
        100).result = .error (.channelBusy chanA) ∧
     (channel_close { envA with held := [chanA] } registryA tokenA partnerA
        100).trace = [] ∧
     (channel_close { envA with held := [chanA] } registryA tokenA partnerA
        100).held = [chanA]) :=
  C3_busy_channel_fails_fast { envA with held := [chanA] } registryA tokenA
    partnerA 10 100 csA (by decide) (by decide) (by decide) (by decide)
    (by decide) (by decide)

/-- Claim C1: for every batch close that reaches the locking loop (valid
addresses, known token), if some involved channel's lock is already held, the
call fails with the channel-busy error, the final lock state equals the
initial one — every lock this batch acquired is released before the error
surfaces — and no close state change is submitted for any channel. -/
theorem C1_batch_close_busy_rolls_back (env : Env)
    (registry_address token_address : Addr) (partner_addresses : List Addr)
    (poll_timeout : Nat)
    (htok : is_binary_address token_address = true)
    (hall : partner_addresses.all is_binary_address = true)
    (hnet : env.tokenNetworks.contains token_address = true)
    (hbusy : ∃ c ∈ filter_channels_by_partneraddress env.node
      registry_address token_address partner_addresses,
      c.identifier ∈ env.held) :
    (∃ b, (channel_batch_close env registry_address token_address
      partner_addresses poll_timeout).result = .error (.channelBusy b)) ∧
    (channel_batch_close env registry_address token_address
      partner_addresses poll_timeout).held = env.held ∧
    (∀ a ∈ (channel_batch_close env registry_address token_address
        partner_addresses poll_timeout).trace,
      ∀ tni cid, a ≠ Action.submitClose tni cid) := by
  have hmem : token_address ∈ env.tokenNetworks := by simpa using hnet
  obtain ⟨h', p', b, hba⟩ := batchAcquire_busy
    (filter_channels_by_partneraddress env.node registry_address
      token_address partner_addresses) env.held [] hbusy
  obtain ⟨q, hq1, hq2⟩ := batchAcquire_shape
    (filter_channels_by_partneraddress env.node registry_address
      token_address partner_addresses) env.held [] h' p' (some b) hba
  have hq1' : p' = q := by simpa using hq1
  subst hq1'
  have hrun : channel_batch_close env registry_address token_address
      partner_addresses poll_timeout =
      ⟨.error (.channelBusy b),
        p'.reverse.map Action.acquireLock ++ p'.map Action.releaseLock,
        List.foldl List.erase h' p'⟩ := by
    simp [channel_batch_close, htok, hall, hmem, hba]
  refine ⟨⟨b, ?_⟩, ?_, ?_⟩
  · rw [hrun]
  · rw [hrun]
    show List.foldl List.erase h' p' = env.held
    rw [hq2]
    exact foldl_erase_append p' env.held
  · rw [hrun]
    intro a ha tni cid
    rcases List.mem_append.mp ha with h1 | h2
    · obtain ⟨x, _, rfl⟩ := List.mem_map.mp h1
      simp
    · obtain ⟨x, _, rfl⟩ := List.mem_map.mp h2
      simp

/-- Witness for C1: closing `[partnerA, partnerB]` while `chanB`'s lock is
held fails busy, restores the lock state, and submits no close. -/
theorem C1_witness :
    (∃ b, (channel_batch_close { envA with held := [chanB] } registryA tokenA
      [partnerA, partnerB] 100).result = .error (.channelBusy b)) ∧
    (channel_batch_close { envA with held := [chanB] } registryA tokenA
      [partnerA, partnerB] 100).held = [chanB] ∧
    (∀ a ∈ (channel_batch_close { envA with held := [chanB] } registryA
        tokenA [partnerA, partnerB] 100).trace,
      ∀ tni cid, a ≠ Action.submitClose tni cid) :=
  C1_batch_close_busy_rolls_back { envA with held := [chanB] } registryA
    tokenA [partnerA, partnerB] 100 (by decide) (by decide) (by decide)
    (by decide)

/-- Claim C2: for every channel identifier `c` and every interleaved trace of
lock operations by concurrently executing call flows that respects the
source's release discipline (a flow only releases a lock it holds, as
`releasing` and the `ExitStack` ensure), at every instant — after any prefix
of the trace — at most one flow holds `c`'s operation lock. -/
theorem C2_lock_mutual_exclusion (ops pre suf : List (Addr × SemOp))
    (c : Addr) (hsplit : ops = pre ++ suf)
    (hws : sysWellScoped sysInit ops = true) :
    ((sysRun sysInit pre) c).holders.length ≤ 1 := by
  subst hsplit
  have hpre := sysWellScoped_append pre suf sysInit hws
  have hinv := sysRun_invariant pre sysInit hpre
    (fun a => by simp [sysInit, Sem.init]) c
  omega

/-- Witness for C2: two flows race for `chanA`'s lock and one releases it
while a third operation touches `chanB`; after the racing prefix, `chanA`
has at most one holder. -/
theorem C2_witness :
    ((sysRun sysInit [(chanA, .tryAcquire 1), (chanA, .tryAcquire 2)])
      chanA).holders.length ≤ 1 :=
  C2_lock_mutual_exclusion
    [(chanA, .tryAcquire 1), (chanA, .tryAcquire 2), (chanA, .release 1),
      (chanB, .tryAcquire 2)]
    [(chanA, .tryAcquire 1), (chanA, .tryAcquire 2)]
    [(chanA, .release 1), (chanB, .tryAcquire 2)]
    chanA (by decide) (by decide)

/-- Counterexample to claim C5 as stated: `channel_deposit` accepts
`amount = 0` (no positivity check exists), and a zero-amount deposit into a
channel with prior balance 5 issues a confirmation wait whose target is 5
itself — which a store value of exactly the prior balance satisfies,
contradicting "a store value of exactly `b` never satisfies the wait
predicate". -/
theorem C5_counterexample :
    Action.waitNewBalance csA.our_contract_balance ∈
      (channel_deposit envA registryA tokenA partnerA 0 100).trace ∧
    newbalance_satisfied csA.our_contract_balance
      (csA.our_contract_balance + 0) = true := by decide

/-- Claim C5 (amended): for every deposit of a positive `amount` that reaches
the ledger mutation (valid addresses, known token, existing channel with
prior recorded balance `b`, sufficient balance, free lock), the issued
confirmation wait targets exactly `b + amount`; the wait predicate holds for
a store balance `s` precisely when `s ≥ b + amount`, and the prior balance
`b` itself never satisfies it. -/
theorem C5_deposit_confirmation_target (env : Env)
    (registry_address token_address partner_address : Addr)
    (amount poll_timeout : Nat) (cs : ChannelState)
    (htok : is_binary_address token_address = true)
    (hpar : is_binary_address partner_address = true)
    (hnet : env.tokenNetworks.contains token_address = true)
    (hcs : get_channelstate_for env.node registry_address token_address
      partner_address = some cs)
    (hle : amount ≤ env.balance)
    (hfree : cs.identifier ∉ env.held)
    (hpos : 1 ≤ amount) :
    Action.waitNewBalance (cs.our_contract_balance + amount) ∈
      (channel_deposit env registry_address token_address partner_address
        amount poll_timeout).trace ∧
    (∀ s, newbalance_satisfied s (cs.our_contract_balance + amount) = true ↔
      cs.our_contract_balance + amount ≤ s) ∧
    newbalance_satisfied cs.our_contract_balance
      (cs.our_contract_balance + amount) = false := by
  have hmem : token_address ∈ env.tokenNetworks := by simpa using hnet
  refine ⟨?_, ?_, ?_⟩
  · cases hwa : env.depositWaitOk <;>
      simp [channel_deposit, htok, hpar, hmem, hcs, hle, hfree, hwa]
  · intro s
    simp [newbalance_satisfied]
  · simp [newbalance_satisfied]
    omega

/-- Witness for the amended C5: depositing 10 on the concrete channel (prior
balance 5) waits for balance at least 15, and 5 does not satisfy it. -/
theorem C5_witness :
    Action.waitNewBalance (csA.our_contract_balance + 10) ∈
      (channel_deposit envA registryA tokenA partnerA 10 100).trace ∧
    (∀ s, newbalance_satisfied s (csA.our_contract_balance + 10) = true ↔
      csA.our_contract_balance + 10 ≤ s) ∧
    newbalance_satisfied csA.our_contract_balance
      (csA.our_contract_balance + 10) = false :=
  C5_deposit_confirmation_target envA registryA tokenA partnerA 10 100 csA
    (by decide) (by decide) (by decide) (by decide) (by decide) (by decide)
    (by decide)

/-- Claim C7, evaluated at the failing input: on a node owning one channel
with token `tokenA` and partner `partnerA` (and one with `partnerB`), the
partner-only query for `partnerA` returns the empty list — the source passes
`partner_address` where `list_channelstate_for_tokennetwork` expects a token
address — although a channel with exactly that partner exists, contradicting
the claimed (and docstring-stated) partner filtering. -/
theorem C7_partner_filter_code_bug :
    get_channel_list envA registryA none (some partnerA) = .ok [] ∧
    envA.node.channels.filter (fun c => c.partner == partnerA) = [csA] ∧
    ([csA] : List ChannelState) ≠ [] := by decide

/-- Claim C8: for every channel-events query that succeeds, every
internally-sourced record of the output comes from a recorded internal event
of one of the three whitelisted kinds whose block number lies in the queried
range, re-shaped into a record carrying that block number, the kind's class
name as discriminator, and the event's own fields; a non-whitelisted
internal event is never present in the output. -/
theorem C8_internal_events_whitelisted (env : EventEnv)
    (channel_address : Addr) (from_block to_block : Nat)
    (evs : List OutputEvent)
    (hok : get_channel_events env channel_address from_block to_block =
      .ok evs) :
    ∀ bn name payload, OutputEvent.reshaped bn name payload ∈ evs →
      ∃ ev, (bn, ev) ∈ env.internalEvents ∧ externally_visible ev = true ∧
        from_block ≤ bn ∧ bn ≤ to_block ∧
        name = eventClassName ev ∧ payload = eventPayload ev := by
  by_cases hv : is_binary_address channel_address = true
  · simp only [get_channel_events, hv, Bool.not_true, Bool.false_eq_true,
      if_false, Except.ok.injEq] at hok
    intro bn name payload hmem
    rw [← hok] at hmem
    rcases List.mem_append.mp hmem with h1 | h2
    · obtain ⟨e, _, heq⟩ := List.mem_map.mp h1
      exact absurd heq (by simp)
    · obtain ⟨be, hbe, heq⟩ := List.mem_map.mp h2
      simp only [OutputEvent.reshaped.injEq] at heq
      obtain ⟨hbn, hname, hpayload⟩ := heq
      obtain ⟨hbe1, hvis⟩ := List.mem_filter.mp hbe
      obtain ⟨hbe2, hrange⟩ := List.mem_filter.mp hbe1
      have hrange' : from_block ≤ be.1 ∧ be.1 ≤ to_block := by
        simpa [get_events_by_block] using hrange
      refine ⟨be.2, ?_, hvis, ?_, ?_, hname.symm, hpayload.symm⟩
      · rw [← hbn]
        simpa using hbe2
      · omega
      · omega
  · simp only [get_channel_events, Bool.not_eq_true'] at hok
    rw [if_pos (by simpa using hv)] at hok
    exact absurd hok (by simp)

/-- A concrete event environment: one ledger event, one whitelisted internal
event in range, one non-whitelisted internal event in range, one whitelisted
internal event out of range. -/
def eventEnvA : EventEnv :=
  { ledgerEvents := [100]
    internalEvents := [(3, .transferSentSuccess 11), (4, .other "EventX" 12),
      (9, .transferSentFailed 13)] }

/-- Witness for C8: the reshaped record at block 3 of the query over blocks
2..5 comes from the recorded whitelisted send-success event. -/
theorem C8_witness :
    ∃ ev, (3, ev) ∈ eventEnvA.internalEvents ∧
      externally_visible ev = true ∧ 2 ≤ 3 ∧ 3 ≤ 5 ∧
      "EventTransferSentSuccess" = eventClassName ev ∧
      11 = eventPayload ev :=
  C8_internal_events_whitelisted eventEnvA chanA 2 5
    [.ledger 100, .reshaped 3 "EventTransferSentSuccess" 11] (by decide)
    3 "EventTransferSentSuccess" 11 (by decide)

/-- Counterexample to claim C9 as stated: on a successful registration
submission the operation still waits one additional block — the wait sits in
a `finally` block — so the wait is not performed "only after a failure". -/
theorem C9_counterexample :
    (token_network_register { envA with tokenNetworks := [] } registryA
      tokenA 100).result = .ok tokenA ∧
    Action.waitForBlock 8 ∈
      (token_network_register { envA with tokenNetworks := [] } registryA
        tokenA 100).trace := by decide

/-- Claim C9 (amended): for every register-token call with valid addresses,
a token already present in the node's token list always fails with the
already-registered error, before any submission and without the extra block
wait; otherwise the registration is submitted and the operation waits one
additional block before concluding on the success path and the failure path
alike (no re-check is performed after the wait: a failed submission surfaces
as the submission error). -/
theorem C9_register_token_waits_after_submission (env : Env)
    (registry_address token_address : Addr) (poll_timeout : Nat)
    (hreg : is_binary_address registry_address = true)
    (htok : is_binary_address token_address = true) :
    (env.tokenNetworks.contains token_address = true →
      (token_network_register env registry_address token_address
        poll_timeout).result =
        .error (.alreadyRegistered "Token already registered") ∧
      (token_network_register env registry_address token_address
        poll_timeout).trace = []) ∧
    (env.tokenNetworks.contains token_address = false →
      (token_network_register env registry_address token_address
        poll_timeout).trace =
        [Action.submitRegister token_address,
         Action.waitForBlock (env.blockNumber + 1)] ∧
      (env.registerOk = true →
        (token_network_register env registry_address token_address
          poll_timeout).result = .ok env.addTokenResult) ∧
      (env.registerOk = false →
        (token_network_register env registry_address token_address
          poll_timeout).result = .error .transactionThrew)) := by
  constructor
  · intro hin
    have hmem : token_address ∈ env.tokenNetworks := by simpa using hin
    simp [token_network_register, hreg, htok, hmem]
  · intro hnin
    have hnmem : token_address ∉ env.tokenNetworks := by
      simpa using hnin
    refine ⟨?_, ?_, ?_⟩
    · cases hr : env.registerOk <;>
        simp [token_network_register, hreg, htok, hnmem, hr]
    · intro hr
      simp [token_network_register, hreg, htok, hnmem, hr]
    · intro hr
      simp [token_network_register, hreg, htok, hnmem, hr]

/-- Witness for the amended C9: registering `tokenA` when it is already in
the token list fails with already-registered and no effect; the unregistered
branch's premise is closed under the same instantiation. -/
theorem C9_witness :
    ((envA.tokenNetworks.contains tokenA = true →
      (token_network_register envA registryA tokenA 100).result =
        .error (.alreadyRegistered "Token already registered") ∧
      (token_network_register envA registryA tokenA 100).trace = []) ∧
    (envA.tokenNetworks.contains tokenA = false →
      (token_network_register envA registryA tokenA 100).trace =
        [Action.submitRegister tokenA,
         Action.waitForBlock (envA.blockNumber + 1)] ∧
      (envA.registerOk = true →
        (token_network_register envA registryA tokenA 100).result =
          .ok envA.addTokenResult) ∧
      (envA.registerOk = false →
        (token_network_register envA registryA tokenA 100).result =
          .error .transactionThrew))) :=
  C9_register_token_waits_after_submission envA registryA tokenA 100
    (by decide) (by decide)

end Raiden
